import Mathlib

/-!
Verification development for the aika relay bot.

The pairing directory, the connect / exit / relay handlers, the top-level
dispatch, the broadcast fan-out and the deletion coordinator are shallowly
embedded from the Go source:

* `internal/repository` redis chat repository (`SetPartner`, `GetUserPartner`,
  `RemoveUser`, `CheckPartnerToEmpty`): the `chat:partner:{id}` keyspace is a
  total function `UserID → Option UserID`; single-key redis get/set/del are
  assumed atomic and error-free, as the spec's shared-resource policy states.
  The `chat:users` set member removal performed by `RemoveUser` touches no
  partner key and is omitted.
* handler `InlineHandler`, `CallbackHandlerExit`, `HandleChat`,
  `DeleteMessageHandler`, `DefaultHandler`, broadcast `SendMessage`: each is a
  pure function from the store and the inbound event to the next store plus a
  trace of messaging-gateway effects.  Outcomes of gateway sends are oracle
  parameters; message texts built by `fmt.Sprintf` are represented by
  structured constructors carrying exactly the data interpolated by the
  corresponding format string.  Telegram user / chat / message identifiers
  (Go `int64` / `int`) are modelled as `Int`; no arithmetic is performed on
  them, so overflow is irrelevant.
-/

/-- Telegram user identifier (Go `int64`). -/
abbrev UserID := Int

/-- The `chat:partner:{id}` keyspace of the redis store: each user id maps to
the stored partner id, or `none` when the key is absent. -/
abbrev Store := UserID → Option UserID

/-- Redis `SET` on a single `chat:partner` key. -/
def storeSet (s : Store) (k v : UserID) : Store :=
  fun x => if x = k then some v else s x

/-- Redis `DEL` on a single `chat:partner` key. -/
def storeDel (s : Store) (k : UserID) : Store :=
  fun x => if x = k then none else s x

/-- The empty directory: no partner key exists. -/
def emptyStore : Store := fun _ => none

/-- `ChatRepository.SetPartner`: `SET chat:partner:{userID} = partnerID`. -/
def SetPartner (s : Store) (userID partnerID : UserID) : Store :=
  storeSet s userID partnerID

/-- `ChatRepository.GetUserPartner`: returns the stored partner id, or `0`
when the key is absent (`redis.Nil` is mapped to `0, nil` in the source). -/
def GetUserPartner (s : Store) (userID : UserID) : UserID :=
  (s userID).getD 0

/-- The `chat:partner` effect of `ChatRepository.RemoveUser`: the partner key
of `userID` is deleted.  (The source also removes `userID` from the
`chat:users` set; that removal touches no partner key.) -/
def RemoveUser (s : Store) (userID : UserID) : Store :=
  storeDel s userID

/-- `ChatRepository.CheckPartnerToEmpty`: `EXISTS chat:partner:{userID}`. -/
def CheckPartnerToEmpty (s : Store) (userID : UserID) : Bool :=
  (s userID).isSome

/-- Notices sent by the pairing handlers.  Each constructor stands for one
`bot.SendMessage` call of the source and carries the chat id it is sent to
(`dst`) plus the identifiers interpolated into its format string. -/
inductive OutMsg
  /-- Busy notice to the requester, naming the busy target
  ("Қолданушы қазір бос емес, күте тұрыңыз: %d"). -/
  | busy (dst target : UserID)
  /-- Pairing confirmation to `dst`, naming the counterpart's numeric
  identifier ("Сіз сұхбаттасушыға ID арқылы қосылдыңыз: %d"). -/
  | paired (dst counterpart : UserID)
  /-- Notice to the remaining partner that the counterpart left the chat. -/
  | partnerLeft (dst : UserID)
  /-- Confirmation to the exiting user that they left the chat. -/
  | youLeft (dst : UserID)
  deriving DecidableEq, Repr

/-- `Handler.InlineHandler` after the `select_` prefix check and id parse:
checks the target's availability, then writes both partner keys and sends
both confirmations (or sends the busy notice and leaves the store alone). -/
def connectSelect (s : Store) (fromID selectedId : UserID) : Store × List OutMsg :=
  if CheckPartnerToEmpty s selectedId then
    (s, [OutMsg.busy fromID selectedId])
  else
    (SetPartner (SetPartner s fromID selectedId) selectedId fromID,
     [OutMsg.paired fromID selectedId, OutMsg.paired selectedId fromID])

/-- `Handler.CallbackHandlerExit`: reads the partner, deletes the user's own
partner key, and when a partner was stored (`partnerID != 0`) deletes the
partner's key and notifies the partner, then confirms to the user. -/
def callbackHandlerExit (s : Store) (userID : UserID) : Store × List OutMsg :=
  if GetUserPartner s userID ≠ 0 then
    (RemoveUser (RemoveUser s userID) (GetUserPartner s userID),
     [OutMsg.partnerLeft (GetUserPartner s userID), OutMsg.youLeft userID])
  else
    (RemoveUser s userID, [OutMsg.youLeft userID])

/-- Store effect of `Handler.HandleChat` when the forward to the partner
fails with "bot was blocked by the user": both partner keys are removed
(`RemoveUser` on the sender, then on the partner).  When the sender has no
partner (`GetUserPartner = 0`) the handler only prompts and the store is
untouched. -/
def relayBlockedStore (s : Store) (userID : UserID) : Store :=
  if GetUserPartner s userID = 0 then s
  else RemoveUser (RemoveUser s userID) (GetUserPartner s userID)

/-- Directory states reachable from the empty directory by the connect, exit
and relay operations exactly as the handlers perform them (C1's state space). -/
inductive Reachable : Store → Prop
  | empty : Reachable emptyStore
  | connect (s : Store) (a t : UserID) (h : Reachable s) :
      Reachable (connectSelect s a t).1
  | exit (s : Store) (a : UserID) (h : Reachable s) :
      Reachable (callbackHandlerExit s a).1
  | relayBlocked (s : Store) (a : UserID) (h : Reachable s) :
      Reachable (relayBlockedStore s a)

/-- Restricted reachability: every connect is issued by a user that holds no
outgoing link, and all identifiers in connect operations are nonzero (`0` is
the code's own no-partner sentinel value). -/
inductive ReachableG : Store → Prop
  | empty : ReachableG emptyStore
  | connect (s : Store) (a t : UserID) (h : ReachableG s)
      (ha : a ≠ 0) (ht : t ≠ 0) (hfree : s a = none) :
      ReachableG (connectSelect s a t).1
  | exit (s : Store) (a : UserID) (h : ReachableG s) :
      ReachableG (callbackHandlerExit s a).1
  | relayBlocked (s : Store) (a : UserID) (h : ReachableG s) :
      ReachableG (relayBlockedStore s a)

/-- The symmetry invariant together with nonzero-ness of all stored partner
values, the auxiliary strengthening used in the preservation proof. -/
def PairInv (s : Store) : Prop :=
  (∀ a b, s a = some b → s b = some a) ∧ (∀ a b, s a = some b → b ≠ 0)

/-- Outcome of one messaging-gateway send, as the relay distinguishes them:
success carries the new message id (`partnerMsg.ID` / `senderMsg.ID`);
`errBlocked` is the error whose text is exactly
"forbidden, Forbidden: bot was blocked by the user"; `errOther` any other
send error. -/
inductive SendResult
  | ok (msgId : Int)
  | errBlocked
  | errOther
  deriving DecidableEq, Repr

/-- Oracle for the two gateway sends a relay branch performs: the forward to
the partner and the echo to the sender. -/
structure Gateway where
  partnerSend : SendResult
  senderSend : SendResult
  deriving DecidableEq, Repr

/-- The fields of `update.Message` read by the text branch of `HandleChat`. -/
structure ChatEvent where
  fromID : UserID
  chatID : UserID
  body : String
  deriving DecidableEq, Repr

/-- The fields of `update.Message` read by the photo branch of `HandleChat`. -/
structure PhotoEvent where
  fromID : UserID
  chatID : UserID
  fileID : String
  caption : String
  deriving DecidableEq, Repr

/-- The four coordinates of the `delete_%d_%d_%d_%d` callback payload. -/
structure DeleteToken where
  senderChatID : Int
  senderMsgID : Int
  partnerChatID : Int
  partnerMsgID : Int
  deriving DecidableEq, Repr

/-- Message contents produced by the relay, one constructor per distinct
format string of the source, carrying the interpolated data. -/
inductive MsgContent
  /-- Partner copy framing: "от %s: %s" (sender nickname, body). -/
  | framed (nick body : String)
  /-- Delete-prompt placeholder:
  "Егер хабарламаны өшіргіңіз келсе, төмендегі батырманы басыңыз." -/
  | placeholder
  /-- Audit-channel copy: "Сообщение от %s: к %s:\n%s" naming the sender
  nickname, the partner identifier, and the body. -/
  | audit (nick : String) (partner : UserID) (body : String)
  /-- Notice to the sender that the partner blocked the bot. -/
  | blockedNotice
  /-- Mini-app connect prompt shown to an unpaired sender. -/
  | connectPrompt
  deriving DecidableEq, Repr

/-- Reply markup attached to a relay send or edit. -/
inductive Markup
  /-- No reply markup. -/
  | noKb
  /-- The "🔕 Шығу" leave-conversation button (callback `exit`). -/
  | exitKb
  /-- Delete button carrying the encoded token plus the leave button. -/
  | deleteKb (token : DeleteToken)
  deriving DecidableEq, Repr

/-- One messaging-gateway call attempted by the relay. -/
inductive Effect
  | send (chat : UserID) (content : MsgContent) (kb : Markup)
  | sendPhoto (chat : UserID) (fileID : String) (caption : MsgContent) (kb : Markup)
  | editText (chat : UserID) (msgId : Int) (content : MsgContent) (kb : Markup)
  | editCaption (chat : UserID) (msgId : Int) (content : MsgContent) (kb : Markup)
  deriving DecidableEq, Repr

/-- Runtime fault: dereference of the nil partner-side message pointer. -/
inductive Fault
  | nilPartnerMsg
  deriving DecidableEq, Repr

/-- Result of one `HandleChat` run: next store, attempted gateway calls in
order, and whether a runtime fault was reached. -/
structure RelayOut where
  store : Store
  trace : List Effect
  fault : Option Fault

/-- Continuation of the text branch after the partner forward: the
placeholder is echoed to the sender; when the echo succeeds, the source
builds the delete token from `update.Message.From.ID`, `senderMsg.ID`,
`partnerID` and `partnerMsg.ID` — `partnerMsg` is the Go nil pointer when
the forward failed, and reading `.ID` on it is the modelled runtime fault —
then edits the placeholder in place and forwards the audit copy. -/
def textAfterForward (s : Store) (ev : ChatEvent) (nick : String)
    (partnerID : UserID) (channel : UserID) (senderSend : SendResult)
    (partnerMsg : Option Int) (tr : List Effect) : RelayOut :=
  match senderSend with
  | SendResult.ok smid =>
      match partnerMsg with
      | some pmid =>
          { store := s
            trace := tr ++ [Effect.send ev.chatID MsgContent.placeholder Markup.noKb,
              Effect.editText ev.chatID smid MsgContent.placeholder
                (Markup.deleteKb ⟨ev.fromID, smid, partnerID, pmid⟩),
              Effect.send channel (MsgContent.audit nick partnerID ev.body) Markup.noKb]
            fault := none }
      | none =>
          { store := s
            trace := tr ++ [Effect.send ev.chatID MsgContent.placeholder Markup.noKb]
            fault := some Fault.nilPartnerMsg }
  | _ =>
      { store := s
        trace := tr ++ [Effect.send ev.chatID MsgContent.placeholder Markup.noKb]
        fault := none }

/-- `Handler.HandleChat`, text branch (`update.Message.Text != ""`).
`nick` is the resolved sender display name, `channel` the audit channel.
When the partner forward fails the source handles the blocked case (teardown
of both partner keys and a notice to the sender) but — unlike every media
branch — does not return, so execution continues with a nil `partnerMsg`. -/
def handleChatText (s : Store) (ev : ChatEvent) (nick : String)
    (channel : UserID) (gw : Gateway) : RelayOut :=
  if GetUserPartner s ev.fromID = 0 then
    { store := s
      trace := [Effect.send ev.chatID MsgContent.connectPrompt Markup.noKb]
      fault := none }
  else
    match gw.partnerSend with
    | SendResult.ok pmid =>
        textAfterForward s ev nick (GetUserPartner s ev.fromID) channel gw.senderSend (some pmid)
          [Effect.send (GetUserPartner s ev.fromID) (MsgContent.framed nick ev.body) Markup.exitKb]
    | SendResult.errBlocked =>
        textAfterForward
          (RemoveUser (RemoveUser s ev.fromID) (GetUserPartner s ev.fromID))
          ev nick (GetUserPartner s ev.fromID) channel gw.senderSend none
          [Effect.send (GetUserPartner s ev.fromID) (MsgContent.framed nick ev.body) Markup.exitKb,
           Effect.send ev.fromID MsgContent.blockedNotice Markup.noKb]
    | SendResult.errOther =>
        textAfterForward s ev nick (GetUserPartner s ev.fromID) channel gw.senderSend none
          [Effect.send (GetUserPartner s ev.fromID) (MsgContent.framed nick ev.body) Markup.exitKb]

/-- Partner-side photo caption: "от %s: фото" when the sender attached no
caption, "от %s: %s" otherwise. -/
def photoPartnerCaption (nick caption : String) : MsgContent :=
  if caption = "" then MsgContent.framed nick "фото" else MsgContent.framed nick caption

/-- Body of the audit-channel photo caption ("фото" when no caption). -/
def photoChannelBody (caption : String) : String :=
  if caption = "" then "фото" else caption

/-- `Handler.HandleChat`, photo branch (`update.Message.Photo != nil`).
Unlike the text branch, every error path of the partner forward ends in
`return`: on a blocked partner both partner keys are removed and the sender
is notified, on any other error the handler just returns.  On success the
photo is echoed to the sender, the echo's caption is edited in place to
carry the delete token (built from `update.Message.Chat.ID`, `senderMsg.ID`,
`partnerID`, `partnerMsg.ID`), and the audit copy is forwarded. -/
def handleChatPhoto (s : Store) (ev : PhotoEvent) (nick : String)
    (channel : UserID) (gw : Gateway) : RelayOut :=
  if GetUserPartner s ev.fromID = 0 then
    { store := s
      trace := [Effect.send ev.chatID MsgContent.connectPrompt Markup.noKb]
      fault := none }
  else
    match gw.partnerSend with
    | SendResult.ok pmid =>
        match gw.senderSend with
        | SendResult.ok smid =>
            { store := s
              trace := [Effect.sendPhoto (GetUserPartner s ev.fromID) ev.fileID
                  (photoPartnerCaption nick ev.caption) Markup.exitKb,
                Effect.sendPhoto ev.chatID ev.fileID MsgContent.placeholder Markup.noKb,
                Effect.editCaption ev.chatID smid MsgContent.placeholder
                  (Markup.deleteKb ⟨ev.chatID, smid, GetUserPartner s ev.fromID, pmid⟩),
                Effect.sendPhoto channel ev.fileID
                  (MsgContent.audit nick (GetUserPartner s ev.fromID)
                    (photoChannelBody ev.caption)) Markup.noKb]
              fault := none }
        | _ =>
            { store := s
              trace := [Effect.sendPhoto (GetUserPartner s ev.fromID) ev.fileID
                  (photoPartnerCaption nick ev.caption) Markup.exitKb,
                Effect.sendPhoto ev.chatID ev.fileID MsgContent.placeholder Markup.noKb]
              fault := none }
    | SendResult.errBlocked =>
        { store := RemoveUser (RemoveUser s ev.fromID) (GetUserPartner s ev.fromID)
          trace := [Effect.sendPhoto (GetUserPartner s ev.fromID) ev.fileID
              (photoPartnerCaption nick ev.caption) Markup.exitKb,
            Effect.send ev.fromID MsgContent.blockedNotice Markup.noKb]
          fault := none }
    | SendResult.errOther =>
        { store := s
          trace := [Effect.sendPhoto (GetUserPartner s ev.fromID) ev.fileID
              (photoPartnerCaption nick ev.caption) Markup.exitKb]
          fault := none }

/-- Session-state constant `stateStart` of the handler package. -/
def stateStart : String := "start"

/-- Session-state constant `stateAdminPanel` of the handler package. -/
def stateAdminPanel : String := "admin_panel"

/-- Session-state constant `stateBroadcast` of the handler package. -/
def stateBroadcast : String := "broadcast"

/-- A handler the top-level dispatch can route an event to. -/
inductive Route
  | admin
  | sendBroadcast
  | chat
  deriving DecidableEq, Repr

/-- `Handler.DefaultHandler`'s routing on a message event, given the stored
session state for the sender.  The source's `default` switch case invokes
`h.DefaultHandler` itself recursively on the identical update — and the
stored state it re-reads is unchanged — so general recursion is embedded
with a fuel parameter: `none` means the recursion did not finish within
`fuel` nested calls (for every fuel, i.e. divergence).  After the switch the
source additionally falls through to `h.HandleChat`, hence the trailing
`Route.chat` on every returning path. -/
def defaultHandlerDispatch : Nat → String → Option (List Route)
  | 0, _ => none
  | Nat.succ fuel, st =>
      if st = stateAdminPanel then some [Route.admin, Route.chat]
      else if st = stateBroadcast then some [Route.sendBroadcast, Route.chat]
      else
        match defaultHandlerDispatch fuel st with
        | none => none
        | some rs => some (rs ++ [Route.chat])

/-- Observable steps of the broadcast run in `Handler.SendMessage`. -/
inductive BEffect
  /-- One worker task performing the single send attempt for `user`. -/
  | sendAttempt (user : UserID)
  /-- "📭 Хабарлама жіберуге пайдаланушылар табылмады" to the operator. -/
  | noRecipientsNotice (admin : UserID)
  /-- Initial progress notice stating the total audience size. -/
  | progressNotice (admin : UserID) (total : Nat)
  /-- Post-barrier in-place edit of the progress notice with the final
  tally. -/
  | finalEdit (admin : UserID) (total succeeded failed : Nat)
  deriving DecidableEq, Repr

/-- The two shared broadcast counters after all workers join: each
recipient's single send attempt increments exactly one of
(`successCount`, `failedCount`), according to its outcome. -/
def fanoutCounts (outcome : UserID → Bool) : List UserID → Nat × Nat
  | [] => (0, 0)
  | u :: rest =>
      if outcome u then ((fanoutCounts outcome rest).1 + 1, (fanoutCounts outcome rest).2)
      else ((fanoutCounts outcome rest).1, (fanoutCounts outcome rest).2 + 1)

/-- The broadcast fan-out of `Handler.SendMessage` from the point where the
audience list has been resolved, run to completion without cancellation:
empty audience → "no recipients" notice and zero sends; otherwise a progress
notice, one rate-limited worker per recipient in audience order, the join
barrier (`wg.Wait`), and the final in-place tally edit.  The per-worker send
outcome is the oracle `outcome`; worker completion order is irrelevant to the
aggregate, so workers are folded sequentially. -/
def runBroadcast (adminId : UserID) (userIds : List UserID)
    (outcome : UserID → Bool) : (Nat × Nat) × List BEffect :=
  if userIds.isEmpty then
    ((0, 0), [BEffect.noRecipientsNotice adminId])
  else
    (fanoutCounts outcome userIds,
     BEffect.progressNotice adminId userIds.length
       :: (userIds.map BEffect.sendAttempt
         ++ [BEffect.finalEdit adminId userIds.length
              (fanoutCounts outcome userIds).1 (fanoutCounts outcome userIds).2]))

/-- The space characters `fmt`'s scanner skips before a `%d` verb: the
ASCII / Latin-1 members of its space table except newline, which `Sscanf`
rejects instead of skipping (wider Unicode space classes do not occur in
callback payloads and are out of scope). -/
def isScanSpace (c : Char) : Bool :=
  c == ' ' || c == '\t' || c == '\r' || c.toNat == 11 || c.toNat == 12
    || c.toNat == 133 || c.toNat == 160

/-- `ss.SkipSpace` before a `%d` verb: drop leading scan spaces. -/
def skipScanSpaces : List Char → List Char
  | [] => []
  | c :: rest => if isScanSpace c then skipScanSpaces rest else c :: rest

/-- Greedy decimal digit run of `%d` (`ss.scanNumber`): accumulates the
value and returns the unconsumed input, stopping at the first non-digit. -/
def scanDigits : List Char → Nat → Nat × List Char
  | [], acc => (acc, [])
  | c :: rest, acc =>
      if c.isDigit then scanDigits rest (10 * acc + (c.toNat - 48))
      else (acc, c :: rest)

/-- One `%d` verb of `fmt.Sscanf` read into an `int64`: skip leading scan
spaces, accept one optional `+` or `-` sign, require a nonempty greedy digit
run, and fail where `strconv.ParseInt(tok, 10, 64)` fails — on a missing
digit or on 64-bit overflow (values above `2^63 - 1`, or `2^63` for a
negated token). -/
def scanInt64 (cs : List Char) : Option (Int × List Char) :=
  match skipScanSpaces cs with
  | [] => none
  | c :: rest =>
      if c = '-' then
        match rest with
        | [] => none
        | d :: _ =>
            if d.isDigit then
              if (scanDigits rest 0).1 ≤ 9223372036854775808 then
                some (-((scanDigits rest 0).1 : Int), (scanDigits rest 0).2)
              else none
            else none
      else if c = '+' then
        match rest with
        | [] => none
        | d :: _ =>
            if d.isDigit then
              if (scanDigits rest 0).1 ≤ 9223372036854775807 then
                some (((scanDigits rest 0).1 : Int), (scanDigits rest 0).2)
              else none
            else none
      else
        if c.isDigit then
          if (scanDigits (c :: rest) 0).1 ≤ 9223372036854775807 then
            some (((scanDigits (c :: rest) 0).1 : Int), (scanDigits (c :: rest) 0).2)
          else none
        else none

/-- `fmt.Sscanf(data, "delete_%d_%d_%d_%d", ...)` of `DeleteMessageHandler`:
the literal `delete_` prefix matched exactly, then four `%d` fields
separated by literal underscores that must match the very next input
character.  Once the format is exhausted (after the fourth field's digit
run) any unconsumed trailing input is ignored, as `Sscanf` ignores it. -/
def parseDeleteToken (data : String) : Option DeleteToken :=
  match data.toList with
  | 'd' :: 'e' :: 'l' :: 'e' :: 't' :: 'e' :: '_' :: rest =>
      match scanInt64 rest with
      | some (sa, '_' :: r1) =>
          match scanInt64 r1 with
          | some (sb, '_' :: r2) =>
              match scanInt64 r2 with
              | some (sc, '_' :: r3) =>
                  match scanInt64 r3 with
                  | some (sd, _) => some ⟨sa, sb, sc, sd⟩
                  | none => none
              | _ => none
          | _ => none
      | _ => none
  | _ => none

/-- Gateway calls of the deletion coordinator. -/
inductive DelEffect
  /-- `b.DeleteMessage` on one (chat, message) coordinate. -/
  | deleteMsg (chat : UserID) (msgId : Int)
  /-- Result notice to the requester: success iff both deletions succeeded
  ("Хабарлама сәтті өшірілді!" / "Хабарлама өшірілмеді!"). -/
  | notify (chat : UserID) (success : Bool)
  deriving DecidableEq, Repr

/-- `Handler.DeleteMessageHandler`: on parse failure the error is printed
and the handler returns — no deletion and no notice; on success both
deletions are attempted independently (`okSend`, `okPartner` are the two
`b.DeleteMessage` outcomes) and the requester is notified, success reported
iff both succeeded. -/
def DeleteMessageHandler (requester : UserID) (data : String)
    (okSend okPartner : Bool) : List DelEffect :=
  match parseDeleteToken data with
  | none => []
  | some t =>
      [DelEffect.deleteMsg t.senderChatID t.senderMsgID,
       DelEffect.deleteMsg t.partnerChatID t.partnerMsgID,
       DelEffect.notify requester (okSend && okPartner)]

theorem pairInv_empty : PairInv emptyStore := by
  constructor <;> intro a b h <;> simp [emptyStore] at h

theorem pairInv_erase_one {s : Store} (h : PairInv s) {A : UserID}
    (hA : s A = none) : PairInv (RemoveUser s A) := by
  constructor
  · intro x y hxy
    simp only [RemoveUser, storeDel] at hxy ⊢
    by_cases hxA : x = A
    · rw [if_pos hxA] at hxy; exact Option.noConfusion hxy
    · rw [if_neg hxA] at hxy
      have hyx := h.1 x y hxy
      have hyA : y ≠ A := by
        intro hy; rw [hy, hA] at hyx; exact Option.noConfusion hyx
      rw [if_neg hyA]; exact hyx
  · intro x y hxy
    simp only [RemoveUser, storeDel] at hxy
    by_cases hxA : x = A
    · rw [if_pos hxA] at hxy; exact Option.noConfusion hxy
    · rw [if_neg hxA] at hxy; exact h.2 x y hxy

theorem pairInv_erase_pair {s : Store} (h : PairInv s) {A B : UserID}
    (hAB : s A = some B) : PairInv (RemoveUser (RemoveUser s A) B) := by
  have hBA : s B = some A := h.1 A B hAB
  constructor
  · intro x y hxy
    simp only [RemoveUser, storeDel] at hxy ⊢
    by_cases hxB : x = B
    · rw [if_pos hxB] at hxy; exact Option.noConfusion hxy
    · rw [if_neg hxB] at hxy
      by_cases hxA : x = A
      · rw [if_pos hxA] at hxy; exact Option.noConfusion hxy
      · rw [if_neg hxA] at hxy
        have hyx := h.1 x y hxy
        have hyA : y ≠ A := by
          intro hy
          rw [hy, hAB] at hyx
          exact hxB (Option.some.inj hyx).symm
        have hyB : y ≠ B := by
          intro hy
          rw [hy, hBA] at hyx
          exact hxA (Option.some.inj hyx).symm
        rw [if_neg hyB, if_neg hyA]; exact hyx
  · intro x y hxy
    simp only [RemoveUser, storeDel] at hxy
    by_cases hxB : x = B
    · rw [if_pos hxB] at hxy; exact Option.noConfusion hxy
    · rw [if_neg hxB] at hxy
      by_cases hxA : x = A
      · rw [if_pos hxA] at hxy; exact Option.noConfusion hxy
      · rw [if_neg hxA] at hxy; exact h.2 x y hxy

theorem pairInv_connect {s : Store} (h : PairInv s) {a t : UserID}
    (ha : a ≠ 0) (ht : t ≠ 0) (hfree : s a = none) :
    PairInv (connectSelect s a t).1 := by
  by_cases hbusy : CheckPartnerToEmpty s t
  · simpa [connectSelect, hbusy] using h
  · have htfree : s t = none := by
      unfold CheckPartnerToEmpty at hbusy
      cases hst : s t with
      | none => rfl
      | some v => rw [hst] at hbusy; simp at hbusy
    simp only [connectSelect, hbusy, Bool.false_eq_true, if_false]
    constructor
    · intro x y hxy
      simp only [SetPartner, storeSet] at hxy ⊢
      by_cases hxt : x = t
      · rw [if_pos hxt] at hxy
        have hya : y = a := (Option.some.inj hxy).symm
        rw [hya, hxt]
        by_cases hat : a = t
        · rw [if_pos hat, hat]
        · rw [if_neg hat, if_pos rfl]
      · rw [if_neg hxt] at hxy
        by_cases hxa : x = a
        · rw [if_pos hxa] at hxy
          have hyt : y = t := (Option.some.inj hxy).symm
          rw [hyt, hxa, if_pos rfl]
        · rw [if_neg hxa] at hxy
          have hyx := h.1 x y hxy
          have hyt : y ≠ t := by
            intro hy; rw [hy, htfree] at hyx; exact Option.noConfusion hyx
          have hya : y ≠ a := by
            intro hy; rw [hy, hfree] at hyx; exact Option.noConfusion hyx
          rw [if_neg hyt, if_neg hya]; exact hyx
    · intro x y hxy
      simp only [SetPartner, storeSet] at hxy
      by_cases hxt : x = t
      · rw [if_pos hxt] at hxy
        rw [← Option.some.inj hxy]; exact ha
      · rw [if_neg hxt] at hxy
        by_cases hxa : x = a
        · rw [if_pos hxa] at hxy
          rw [← Option.some.inj hxy]; exact ht
        · rw [if_neg hxa] at hxy; exact h.2 x y hxy

theorem pairInv_exit {s : Store} (h : PairInv s) (A : UserID) :
    PairInv (callbackHandlerExit s A).1 := by
  cases hA : s A with
  | none =>
      have hup : GetUserPartner s A = 0 := by rw [GetUserPartner, hA]; rfl
      simp only [callbackHandlerExit, hup, ne_eq, not_true_eq_false, if_false]
      exact pairInv_erase_one h hA
  | some B =>
      have hB : B ≠ 0 := h.2 A B hA
      have hup : GetUserPartner s A = B := by rw [GetUserPartner, hA]; rfl
      simp only [callbackHandlerExit, hup, ne_eq, hB, not_false_eq_true, if_true]
      exact pairInv_erase_pair h hA

theorem pairInv_relayBlocked {s : Store} (h : PairInv s) (A : UserID) :
    PairInv (relayBlockedStore s A) := by
  cases hA : s A with
  | none =>
      have hup : GetUserPartner s A = 0 := by rw [GetUserPartner, hA]; rfl
      simp only [relayBlockedStore, hup, if_pos rfl]
      exact h
  | some B =>
      have hB : B ≠ 0 := h.2 A B hA
      have hup : GetUserPartner s A = B := by rw [GetUserPartner, hA]; rfl
      simp only [relayBlockedStore, hup, if_neg hB]
      exact pairInv_erase_pair h hA

theorem reachableG_pairInv {s : Store} (h : ReachableG s) : PairInv s := by
  induction h with
  | empty => exact pairInv_empty
  | connect s a t h ha ht hfree ih => exact pairInv_connect ih ha ht hfree
  | exit s a h ih => exact pairInv_exit ih a
  | relayBlocked s a h ih => exact pairInv_relayBlocked ih a

/-- C1 counterexample: starting from the empty directory, user 1 connects to
the free user 2 and then — while still paired — connects to the free user 3.
`InlineHandler` checks only the target's availability, never the
requester's, so the resulting reachable state has `partner(2) = 1` but
`partner(1) = 3`: the symmetry invariant does not hold on every reachable
state. -/
theorem pairing_symmetry_counterexample :
    ¬ (∀ s : Store, Reachable s → ∀ a b, s a = some b → s b = some a) := by
  intro h
  have hr : Reachable (connectSelect (connectSelect emptyStore 1 2).1 1 3).1 :=
    Reachable.connect _ 1 3 (Reachable.connect _ 1 2 Reachable.empty)
  have h21 := h _ hr 2 1 (by decide)
  have h13 : (connectSelect (connectSelect emptyStore 1 2).1 1 3).1 1 = some 3 := by decide
  rw [h21] at h13
  exact absurd (Option.some.inj h13) (by decide)

/-- C1 (amended): on every state reachable from the empty directory when
every connect is issued by a user holding no outgoing link (and connect
identifiers are nonzero, `0` being the code's no-partner sentinel), the
symmetry invariant holds — `partner(A) = B` implies `partner(B) = A` — and
every user has at most one outgoing partner link. -/
theorem reachableG_pairing_symmetric {s : Store} (h : ReachableG s) :
    (∀ a b, s a = some b → s b = some a)
    ∧ (∀ a b c, s a = some b → s a = some c → b = c) := by
  refine ⟨(reachableG_pairInv h).1, ?_⟩
  intro a b c h1 h2
  rw [h1] at h2
  exact Option.some.inj h2

/-- C1 witness: after user 1 connects to the free user 2, symmetry gives
`partner(2) = 1`. -/
theorem reachableG_pairing_symmetric_witness :
    (connectSelect emptyStore 1 2).1 2 = some 1 :=
  (reachableG_pairing_symmetric
      (ReachableG.connect emptyStore 1 2 ReachableG.empty (by decide) (by decide) rfl)).1
    1 2 (by decide)

/-- C2: for any session state other than `admin_panel` and `broadcast` —
in particular the default state `start` every fresh user is saved with —
`DefaultHandler`'s dispatch never returns, for every recursion budget: the
`default` switch case re-invokes `DefaultHandler` on the identical update
with unchanged stored state.  The claimed termination and single-handler
routing fail. -/
theorem defaultHandlerDispatch_diverges (fuel : Nat) (st : String)
    (h1 : st ≠ stateAdminPanel) (h2 : st ≠ stateBroadcast) :
    defaultHandlerDispatch fuel st = none := by
  induction fuel with
  | zero => rfl
  | succ n ih =>
      rw [defaultHandlerDispatch, if_neg h1, if_neg h2, ih]

/-- C2 witness: a message from a user in the default `start` state is never
routed, at recursion budget 5. -/
theorem defaultHandlerDispatch_diverges_witness :
    defaultHandlerDispatch 5 stateStart = none :=
  defaultHandlerDispatch_diverges 5 stateStart (by decide) (by decide)

/-- C3: at the failing input — user 1 paired with user 2 sends a text, the
forward to the partner fails (blocked partner, or any other send error) and
the sender-side echo succeeds — the text branch of `HandleChat` continues
past the failed forward (its blocked-case handling, unlike every media
branch, has no `return`) and dereferences the nil partner-side message when
building the delete token. -/
theorem handleChatText_nil_deref_fault :
    (handleChatText (connectSelect emptyStore 1 2).1 ⟨1, 1, "hi"⟩ "aika" 99
        ⟨SendResult.errBlocked, SendResult.ok 10⟩).fault = some Fault.nilPartnerMsg
    ∧ (handleChatText (connectSelect emptyStore 1 2).1 ⟨1, 1, "hi"⟩ "aika" 99
        ⟨SendResult.errOther, SendResult.ok 10⟩).fault = some Fault.nilPartnerMsg :=
  ⟨rfl, rfl⟩

/-- C4: a text message from a paired sender whose partner is reachable (both
gateway sends succeed) performs exactly these deliveries, in order: the
framed copy to the partner with the sender's nickname and the leave control;
the placeholder echoed to the sender; the in-place edit attaching the delete
token that references both chat identifiers and both message identifiers
(the partner-side id known only after the forward); and one audit-channel
copy naming both participants.  The store is unchanged and no fault occurs.
(`hpriv` is the private-chat identity `Chat.ID = From.ID` under which the
relay operates.) -/
theorem handleChatText_happy_path (s : Store) (ev : ChatEvent) (nick : String)
    (channel : UserID) (B : UserID) (pmid smid : Int)
    (hp : GetUserPartner s ev.fromID = B) (hB : B ≠ 0)
    (hpriv : ev.chatID = ev.fromID) :
    handleChatText s ev nick channel ⟨SendResult.ok pmid, SendResult.ok smid⟩ =
      { store := s
        trace := [Effect.send B (MsgContent.framed nick ev.body) Markup.exitKb,
          Effect.send ev.chatID MsgContent.placeholder Markup.noKb,
          Effect.editText ev.chatID smid MsgContent.placeholder
            (Markup.deleteKb ⟨ev.chatID, smid, B, pmid⟩),
          Effect.send channel (MsgContent.audit nick B ev.body) Markup.noKb]
        fault := none } := by
  simp only [handleChatText, hp, if_neg hB, textAfterForward, hpriv,
    List.cons_append, List.nil_append]

/-- C4 witness: the concrete happy-path trace for the pair 1 ↔ 2. -/
theorem handleChatText_happy_path_witness :
    handleChatText (connectSelect emptyStore 1 2).1 ⟨1, 1, "hi"⟩ "aika" 99
        ⟨SendResult.ok 5, SendResult.ok 6⟩ =
      { store := (connectSelect emptyStore 1 2).1
        trace := [Effect.send 2 (MsgContent.framed "aika" "hi") Markup.exitKb,
          Effect.send 1 MsgContent.placeholder Markup.noKb,
          Effect.editText 1 6 MsgContent.placeholder
            (Markup.deleteKb ⟨1, 6, 2, 5⟩),
          Effect.send 99 (MsgContent.audit "aika" 2 "hi") Markup.noKb]
        fault := none } :=
  handleChatText_happy_path (connectSelect emptyStore 1 2).1 ⟨1, 1, "hi"⟩ "aika" 99
    2 5 6 (by decide) (by decide) rfl

/-- Sum of the two broadcast counters over the fold. -/
theorem fanoutCounts_sum (outcome : UserID → Bool) (l : List UserID) :
    (fanoutCounts outcome l).1 + (fanoutCounts outcome l).2 = l.length := by
  induction l with
  | nil => rfl
  | cons u rest ih =>
      by_cases h : outcome u
      · simp only [fanoutCounts, h, if_true, List.length_cons]
        omega
      · simp only [fanoutCounts, h, Bool.false_eq_true, if_false, List.length_cons]
        omega

/-- C5: a broadcast over an audience of N recipients that runs to completion
without cancellation: for N = 0 no sends are attempted and the "no
recipients" notice is reported; always `successCount + failureCount = N`;
for N > 0 the trace is the initial progress notice, exactly one send attempt
per recipient in audience order — each incrementing exactly one of the two
counters — and the post-barrier final tally edit. -/
theorem runBroadcast_tally (adminId : UserID) (userIds : List UserID)
    (outcome : UserID → Bool) :
    ((runBroadcast adminId userIds outcome).1.1
        + (runBroadcast adminId userIds outcome).1.2 = userIds.length)
    ∧ (userIds = [] →
        runBroadcast adminId userIds outcome
          = ((0, 0), [BEffect.noRecipientsNotice adminId]))
    ∧ (userIds ≠ [] →
        (runBroadcast adminId userIds outcome).2 =
          BEffect.progressNotice adminId userIds.length
            :: (userIds.map BEffect.sendAttempt
              ++ [BEffect.finalEdit adminId userIds.length
                  (runBroadcast adminId userIds outcome).1.1
                  (runBroadcast adminId userIds outcome).1.2])) := by
  refine ⟨?_, ?_, ?_⟩
  · by_cases h : userIds.isEmpty
    · rw [List.isEmpty_iff] at h
      subst h
      rfl
    · simp only [runBroadcast, h, Bool.false_eq_true, if_false]
      exact fanoutCounts_sum outcome userIds
  · intro h
    subst h
    rfl
  · intro h
    have h2 : userIds.isEmpty = false := by
      cases userIds with
      | nil => exact absurd rfl h
      | cons a l => rfl
    simp only [runBroadcast, h2, Bool.false_eq_true, if_false]

/-- C5 witness: the tally over a two-recipient audience with one failure,
and the empty-audience notice. -/
theorem runBroadcast_tally_witness :
    ((runBroadcast 9 [3, 4] (fun u => u == 3)).1.1
        + (runBroadcast 9 [3, 4] (fun u => u == 3)).1.2 = 2)
    ∧ runBroadcast 9 [] (fun _ => true) = ((0, 0), [BEffect.noRecipientsNotice 9]) :=
  ⟨(runBroadcast_tally 9 [3, 4] (fun u => u == 3)).1,
   (runBroadcast_tally 9 [] (fun _ => true)).2.1 rfl⟩

/-- Fidelity of `parseDeleteToken` to `fmt.Sscanf` at the
well-formed / malformed boundary: trailing input after the fourth field is
ignored (extra fields or junk), a leading `+` sign and leading spaces before
a `%d` are accepted, an `int64`-overflowing field fails while the most
negative `int64` parses, and a non-digit field, a missing field, a non-digit
directly after a digit run where the literal `_` is expected, or a space
where the literal `_` is expected all fail. -/
theorem parseDeleteToken_sscanf_boundary :
    parseDeleteToken "delete_1_2_3_4_5" = some ⟨1, 2, 3, 4⟩
    ∧ parseDeleteToken "delete_+1_2_3_4" = some ⟨1, 2, 3, 4⟩
    ∧ parseDeleteToken "delete_1_2_3_4abc" = some ⟨1, 2, 3, 4⟩
    ∧ parseDeleteToken "delete_ 1_2_3_4" = some ⟨1, 2, 3, 4⟩
    ∧ parseDeleteToken "delete_9223372036854775808_2_3_4" = none
    ∧ parseDeleteToken "delete_-9223372036854775808_2_3_4"
        = some ⟨-9223372036854775808, 2, 3, 4⟩
    ∧ parseDeleteToken "delete_1_2_3" = none
    ∧ parseDeleteToken "delete_1x_2_3_4" = none
    ∧ parseDeleteToken "delete_1 _2_3_4" = none := by
  refine ⟨?_, ?_, ?_, ?_, ?_, ?_, ?_, ?_, ?_⟩ <;> decide

/-- C6 counterexample: the malformed token "delete_x" performs zero
deletions — but the requester is sent no failure notice either (the source
only prints the parse error and returns), so the claim's "a failure is
reported to the requester" is false. -/
theorem deleteMessageHandler_malformed_counterexample :
    parseDeleteToken "delete_x" = none
    ∧ DeleteMessageHandler 7 "delete_x" true true = []
    ∧ DelEffect.notify 7 false ∉ DeleteMessageHandler 7 "delete_x" true true := by
  have h : DeleteMessageHandler 7 "delete_x" true true = [] := rfl
  exact ⟨rfl, h, by rw [h]; exact List.not_mem_nil _⟩

/-- C6 (amended): a token parsing as `delete_<senderChatID>_<senderMsgID>_
<partnerChatID>_<partnerMsgID>` triggers exactly two independent deletion
attempts followed by a notice to the requester reporting success iff both
deletions succeeded; a malformed token performs zero deletions and sends
nothing to the requester (the parse error is only logged). -/
theorem deleteMessageHandler_spec (requester : UserID) (data : String)
    (okSend okPartner : Bool) :
    (∀ t, parseDeleteToken data = some t →
        DeleteMessageHandler requester data okSend okPartner =
          [DelEffect.deleteMsg t.senderChatID t.senderMsgID,
           DelEffect.deleteMsg t.partnerChatID t.partnerMsgID,
           DelEffect.notify requester (okSend && okPartner)])
    ∧ (parseDeleteToken data = none →
        DeleteMessageHandler requester data okSend okPartner = []) := by
  constructor
  · intro t ht
    unfold DeleteMessageHandler
    rw [ht]
  · intro ht
    unfold DeleteMessageHandler
    rw [ht]

/-- C6 witness: the well-formed token "delete_1_2_3_4" with one failed
deletion yields the two attempts and a not-fully-successful notice. -/
theorem deleteMessageHandler_spec_witness :
    DeleteMessageHandler 7 "delete_1_2_3_4" true false =
      [DelEffect.deleteMsg 1 2, DelEffect.deleteMsg 3 4, DelEffect.notify 7 false] :=
  (deleteMessageHandler_spec 7 "delete_1_2_3_4" true false).1 ⟨1, 2, 3, 4⟩ (by decide)

/-- C7: when the relay forward fails because the partner blocked the bot
(photo branch, the claim's cited lines), both partner keys are removed, the
sender is notified the partner is unreachable, no fault occurs, and
`GetUserPartner` afterwards returns the no-partner sentinel for both
identifiers. -/
theorem handleChatPhoto_blocked_teardown (s : Store) (ev : PhotoEvent)
    (nick : String) (channel : UserID) (B : UserID) (ss : SendResult)
    (hp : GetUserPartner s ev.fromID = B) (hB : B ≠ 0) :
    GetUserPartner
        (handleChatPhoto s ev nick channel ⟨SendResult.errBlocked, ss⟩).store ev.fromID = 0
    ∧ GetUserPartner
        (handleChatPhoto s ev nick channel ⟨SendResult.errBlocked, ss⟩).store B = 0
    ∧ Effect.send ev.fromID MsgContent.blockedNotice Markup.noKb
        ∈ (handleChatPhoto s ev nick channel ⟨SendResult.errBlocked, ss⟩).trace
    ∧ (handleChatPhoto s ev nick channel ⟨SendResult.errBlocked, ss⟩).fault = none := by
  refine ⟨?_, ?_, ?_, ?_⟩ <;>
    simp only [handleChatPhoto, hp, if_neg hB] <;>
    simp [GetUserPartner, RemoveUser, storeDel]

/-- C7 witness: pair 1 ↔ 2, user 1 sends a photo, the forward is rejected
because user 2 blocked the bot. -/
theorem handleChatPhoto_blocked_teardown_witness :
    GetUserPartner
        (handleChatPhoto (connectSelect emptyStore 1 2).1 ⟨1, 1, "f", ""⟩ "aika" 99
          ⟨SendResult.errBlocked, SendResult.ok 3⟩).store 1 = 0
    ∧ GetUserPartner
        (handleChatPhoto (connectSelect emptyStore 1 2).1 ⟨1, 1, "f", ""⟩ "aika" 99
          ⟨SendResult.errBlocked, SendResult.ok 3⟩).store 2 = 0 :=
  ⟨(handleChatPhoto_blocked_teardown (connectSelect emptyStore 1 2).1 ⟨1, 1, "f", ""⟩
      "aika" 99 2 (SendResult.ok 3) (by decide) (by decide)).1,
   (handleChatPhoto_blocked_teardown (connectSelect emptyStore 1 2).1 ⟨1, 1, "f", ""⟩
      "aika" 99 2 (SendResult.ok 3) (by decide) (by decide)).2.1⟩

/-- C8: after an exit by user A, A's partner key is gone; if A had a stored
partner B (nonzero, as every real pairing stores), B's key is gone too, B is
notified and A receives the exit confirmation; and an exit by an
already-unpaired A (no partner key) succeeds, sends only the confirmation,
and leaves the directory unchanged. -/
theorem callbackHandlerExit_spec (s : Store) (A : UserID) :
    GetUserPartner (callbackHandlerExit s A).1 A = 0
    ∧ (∀ B, s A = some B → B ≠ 0 →
        GetUserPartner (callbackHandlerExit s A).1 B = 0
        ∧ (callbackHandlerExit s A).2 = [OutMsg.partnerLeft B, OutMsg.youLeft A])
    ∧ (s A = none → callbackHandlerExit s A = (s, [OutMsg.youLeft A])) := by
  refine ⟨?_, ?_, ?_⟩
  · by_cases h : GetUserPartner s A ≠ 0
    · rw [callbackHandlerExit, if_pos h]
      simp [GetUserPartner, RemoveUser, storeDel, ite_self]
    · rw [callbackHandlerExit, if_neg h]
      simp [GetUserPartner, RemoveUser, storeDel]
  · intro B hB hBne
    have hp : GetUserPartner s A = B := by rw [GetUserPartner, hB]; rfl
    have h : GetUserPartner s A ≠ 0 := by rw [hp]; exact hBne
    rw [callbackHandlerExit, if_pos h, hp]
    constructor
    · simp [GetUserPartner, RemoveUser, storeDel]
    · rfl
  · intro hA
    have hp : GetUserPartner s A = 0 := by rw [GetUserPartner, hA]; rfl
    rw [callbackHandlerExit, if_neg (by simp [hp])]
    have hsame : RemoveUser s A = s := by
      funext x
      by_cases hx : x = A
      · rw [RemoveUser, storeDel]
        rw [if_pos hx, hx, hA]
      · rw [RemoveUser, storeDel, if_neg hx]
    rw [hsame]

/-- C8 witness: exit by user 1 of the pair 1 ↔ 2 clears both keys and
notifies user 2; exit on the empty directory is a no-op with only the
confirmation. -/
theorem callbackHandlerExit_spec_witness :
    GetUserPartner (callbackHandlerExit (connectSelect emptyStore 1 2).1 1).1 2 = 0
    ∧ callbackHandlerExit emptyStore 1 = (emptyStore, [OutMsg.youLeft 1]) :=
  ⟨((callbackHandlerExit_spec (connectSelect emptyStore 1 2).1 1).2.1
      2 (by decide) (by decide)).1,
   (callbackHandlerExit_spec emptyStore 1).2.2 rfl⟩

/-- C9: `select_B` issued by A while B has no outgoing partner link writes
both links — `GetPartner(A) = B` and `GetPartner(B) = A` — and sends the two
confirmations, each naming the counterpart's numeric identifier. -/
theorem inlineHandler_pair_success (s : Store) (A B : UserID)
    (hfree : s B = none) :
    GetUserPartner (connectSelect s A B).1 A = B
    ∧ GetUserPartner (connectSelect s A B).1 B = A
    ∧ (connectSelect s A B).2 = [OutMsg.paired A B, OutMsg.paired B A] := by
  have hchk : CheckPartnerToEmpty s B = false := by
    rw [CheckPartnerToEmpty, hfree]
    rfl
  refine ⟨?_, ?_, ?_⟩
  · by_cases hAB : A = B
    · rw [hAB]
      simp [connectSelect, hchk, GetUserPartner, SetPartner, storeSet]
    · simp [connectSelect, hchk, GetUserPartner, SetPartner, storeSet, hAB]
  · simp [connectSelect, hchk, GetUserPartner, SetPartner, storeSet]
  · simp [connectSelect, hchk]

/-- C9 witness: user 1 selects the free user 2 on the empty directory. -/
theorem inlineHandler_pair_success_witness :
    GetUserPartner (connectSelect emptyStore 1 2).1 1 = 2
    ∧ GetUserPartner (connectSelect emptyStore 1 2).1 2 = 1 :=
  ⟨(inlineHandler_pair_success emptyStore 1 2 rfl).1,
   (inlineHandler_pair_success emptyStore 1 2 rfl).2.1⟩

/-- C10: `select_B` issued while B already holds an outgoing partner link
leaves the pairing directory completely unchanged — the returned store is
the input store itself, no partner key written or deleted — and A is sent
the busy notice naming B. -/
theorem inlineHandler_busy_unchanged (s : Store) (A B : UserID)
    (hbusy : CheckPartnerToEmpty s B = true) :
    connectSelect s A B = (s, [OutMsg.busy A B]) := by
  rw [connectSelect, if_pos hbusy]

/-- C10 witness: user 1 selects user 2 while user 2 is paired with user 5. -/
theorem inlineHandler_busy_unchanged_witness :
    connectSelect (SetPartner emptyStore 2 5) 1 2
      = (SetPartner emptyStore 2 5, [OutMsg.busy 1 2]) :=
  inlineHandler_busy_unchanged (SetPartner emptyStore 2 5) 1 2 rfl
